import Mathlib

/-!
Verification of the authentication & tenant-context core of the
Lab-management repository, shallowly embedded in Lean 4.

Sources embedded here:
  * `core/middleware.py`  — thread-local tenant context and `TenantMiddleware`
  * `core/jwt_auth.py`    — `JwtAuthenticationStrategy`
  * `core/auth.py`        — `AuthenticationService`, `AuthenticatedUser`
  * `tenants/models.py`   — `Tenant.deactivate`, `Tenant.activate`

Machine-level conventions: Python `None` becomes `Option.none`; Python
exceptions become values of `PyExc` carried in `Except`; the thread-local
object `_thread_locals = threading.local()` becomes a map from thread id to
the optional per-thread slot, and each source function receives the id of the
executing thread explicitly.
-/

namespace LabMgmt

/-- A tenant as observed by the middleware: `tenants/models.py` `Tenant`
restricted to the fields the authentication core reads (`id` is the primary
key, `is_active` the activation flag; `name`/`slug` stand in for the frame of
remaining columns). -/
structure Tenant where
  id : Nat
  name : String
  is_active : Bool
deriving DecidableEq, Repr

/-! ## Tenant context manager (`core/middleware.py`, lines 12–35)

`_thread_locals = threading.local()` gives every thread its own attribute
namespace; the `tenant` attribute is either present (`some t`) or absent
(`none`).  The whole storage is therefore a map from thread ids to optional
tenants, and every operation acts only on the slot of the calling thread. -/

/-- The state of `_thread_locals`: for each thread id, the value of its
`tenant` attribute (`none` when the attribute is absent). -/
def TenantCtx : Type := Nat → Option Tenant

/-- `get_current_tenant()` executed by thread `tid`:
`getattr(_thread_locals, 'tenant', None)`. -/
def get_current_tenant (s : TenantCtx) (tid : Nat) : Option Tenant :=
  s tid

/-- `set_current_tenant(tenant)` executed by thread `tid`:
`_thread_locals.tenant = tenant`. -/
def set_current_tenant (s : TenantCtx) (tid : Nat) (t : Tenant) : TenantCtx :=
  fun tid' => if tid' = tid then some t else s tid'

/-- `clear_current_tenant()` executed by thread `tid`:
`if hasattr(_thread_locals, 'tenant'): delattr(_thread_locals, 'tenant')`.
Whether or not the attribute was present, afterwards it is absent; the
operation raises nothing in either case. -/
def clear_current_tenant (s : TenantCtx) (tid : Nat) : TenantCtx :=
  fun tid' => if tid' = tid then none else s tid'

/-! ### Interleaved executions of the context operations (for the isolation
claim): a trace is a list of mutating operations, each tagged with the thread
that executes it; `get` is read off the resulting state. -/

/-- One mutating context operation, tagged with the executing thread. -/
inductive CtxOp where
  | set (tid : Nat) (t : Tenant)
  | clear (tid : Nat)
deriving DecidableEq, Repr

/-- The thread executing an operation. -/
def CtxOp.thread : CtxOp → Nat
  | .set tid _ => tid
  | .clear tid => tid

/-- Apply one operation to the thread-local storage. -/
def applyOp (s : TenantCtx) : CtxOp → TenantCtx
  | .set tid t => set_current_tenant s tid t
  | .clear tid => clear_current_tenant s tid

/-- Run an interleaved trace of context operations left to right. -/
def runOps (s : TenantCtx) : List CtxOp → TenantCtx
  | [] => s
  | op :: rest => runOps (applyOp s op) rest

/-- An operation of another thread leaves this thread's slot untouched. -/
lemma applyOp_other (s : TenantCtx) (op : CtxOp) (a : Nat)
    (h : op.thread ≠ a) : applyOp s op a = s a := by
  cases op with
  | set tid t =>
      simp only [CtxOp.thread] at h
      simp [applyOp, set_current_tenant, Ne.symm h]
  | clear tid =>
      simp only [CtxOp.thread] at h
      simp [applyOp, clear_current_tenant, Ne.symm h]

/-- Invariant propagation: if every operation that thread `a` performs in the
trace either sets `tA` or clears, then `a`'s slot stays in `{none, some tA}`. -/
lemma runOps_own_invariant (ops : List CtxOp) (s : TenantCtx) (a : Nat)
    (tA : Tenant)
    (hops : ∀ op ∈ ops, op.thread = a → op = .set a tA ∨ op = .clear a)
    (hs : s a = none ∨ s a = some tA) :
    runOps s ops a = none ∨ runOps s ops a = some tA := by
  induction ops generalizing s with
  | nil => simpa [runOps] using hs
  | cons op rest ih =>
      refine ih (applyOp s op) (fun o ho ha => hops o (by simp [ho]) ha) ?_
      by_cases hth : op.thread = a
      · rcases hops op (by simp) hth with h | h
        · subst h; right; simp [applyOp, set_current_tenant]
        · subst h; left; simp [applyOp, clear_current_tenant]
      · rw [applyOp_other s op a hth]; exact hs

/-! ## Exceptions and users (`core/jwt_auth.py`, `core/auth.py`) -/

/-- The Python exceptions that reach the authentication boundary.
`customAuthFailed` models `CustomAuthenticationFailed` — modelled from the
spec insofar as `core/exception.py` is not under `src/`; all call sites show
it is an exception class constructed from a message, raised and caught by
class, which is all this embedding needs. `userDoesNotExist` is Django's
`User.DoesNotExist` raised by `User.objects.get(id=user_id)` on a lookup
miss. `typeError` is the interpreter-level `TypeError` (e.g. unpacking
`None`). -/
inductive PyExc where
  | customAuthFailed (msg : String)
  | userDoesNotExist (user_id : Nat)
  | typeError (msg : String)
deriving DecidableEq, Repr

/-- A persistent user record, restricted to the fields the authentication
core reads (`accounts/models.py` `User`): primary key, the tenant the FK
resolves to (`none` when the nullable FK is null), `is_active`, `is_staff`
and `role`. -/
structure UserRec where
  id : Nat
  tenant : Option Tenant
  is_active : Bool
  is_staff : Bool
  role : String
deriving DecidableEq, Repr

/-- The user table visible to `User.objects.get`. -/
def UserDb : Type := List UserRec

/-- The decoded claim set of a structurally valid, correctly signed,
unexpired token: the claims read by `jwt_auth.py` (`payload.get('user_id')`,
`payload.get('role')`), each `none` when the claim is absent. -/
structure Payload where
  user_id : Option Nat
  role : Option String
deriving DecidableEq, Repr

/-- Outcome of the underlying library call `UntypedToken(token)`
(`rest_framework_simplejwt`): one constructor per exception the source
catches, plus success with the decoded payload.  The library itself is
outside the repository, so `authenticate` is parameterised by a function
`String → TokenOutcome` describing it. -/
inductive TokenOutcome where
  | invalidToken
  | tokenError
  | expiredSignature
  | invalidTokenError
  | ok (payload : Payload)
deriving DecidableEq, Repr

/-- A token the validator/authenticator rejects with the opaque message:
any of the four caught exception classes (expired, structurally malformed,
bad signature), or a decodable payload missing the `user_id` claim. -/
def TokenOutcome.rejected : TokenOutcome → Bool
  | .ok p => p.user_id.isNone
  | _ => true

/-- Does an exception value belong to the `CustomAuthenticationFailed`
class? (what an `except CustomAuthenticationFailed` handler would catch). -/
def PyExc.isCustomAuthFailed : PyExc → Bool
  | .customAuthFailed _ => true
  | _ => false

/-- The request fields the authentication core reads:
`request.path`, `request.headers.get("Authorization")` and the fallback
`request.META.get("HTTP_AUTHORIZATION")` (each `none` when absent). -/
structure HttpRequest where
  path : String
  authorization : Option String
  http_authorization : Option String
deriving DecidableEq, Repr

/-- Python truthiness of an optional string: `None` and `""` are falsy. -/
def truthy : Option String → Bool
  | none => false
  | some s => s ≠ ""

/-- Python `s.startswith(p)`, stated on the character sequences of the
strings (the byte-position-based `String.startsWith` of the Lean core
library does not reduce inside the kernel, so the embedding works on
`String.data`). -/
def startswith (s p : String) : Bool :=
  p.data.isPrefixOf s.data

/-- `auth_header` after the fallback in `jwt_auth.py` lines 92–96:
`auth_header = request.headers.get("Authorization")`,
then `if not auth_header: auth_header = request.META.get("HTTP_AUTHORIZATION")`. -/
def effective_auth_header (req : HttpRequest) : Option String :=
  if truthy req.authorization then req.authorization else req.http_authorization

/-- `auth_header.split(' ')[1]`: the characters strictly between the first
and the second space (defined whenever the header contains a space, which
`startswith('Bearer ')` guarantees; Python would raise `IndexError` on a
header with no space, a case the guard makes unreachable). -/
def split_token (header : String) : String :=
  ⟨((header.data.dropWhile (fun c => c ≠ ' ')).drop 1).takeWhile
      (fun c => c ≠ ' ')⟩

/-- The result of `AuthenticatedUser(user_id, payload.get("role"), current_user)`
(`core/auth.py` lines 6–13): copies the id and role from the token and the
tenant / staff flag from the resolved user record; `is_authenticated` is the
default `True`. -/
structure AuthenticatedUser where
  id : Nat
  role : Option String
  tenant : Option Tenant
  is_staff : Bool
  is_authenticated : Bool
deriving DecidableEq, Repr

/-- Which collaborators `JwtAuthenticationStrategy.authenticate` invoked
(observables for the claims about call order). -/
structure AuthTrace where
  validator_called : Bool
  get_user_called : Bool
deriving DecidableEq, Repr

/-- `JwtAuthenticationStrategy.token_validation` (`jwt_auth.py` 121–125):
`return UntypedToken(token)` with the four exception classes caught and
re-raised as `CustomAuthenticationFailed("Token expired or Invalid")`. -/
def token_validation (validate : String → TokenOutcome) (token : String) :
    Except PyExc Payload :=
  match validate token with
  | .ok p => .ok p
  | _ => .error (.customAuthFailed "Token expired or Invalid")

/-- `JwtAuthenticationStrategy.get_user` (`jwt_auth.py` 127–128):
`User.objects.get(id=user_id)` — returns the row or raises
`User.DoesNotExist` (ids are the primary key, so `find?` is the lookup). -/
def get_user (db : UserDb) (user_id : Nat) : Except PyExc UserRec :=
  match db.find? (fun u => u.id = user_id) with
  | some u => .ok u
  | none => .error (.userDoesNotExist user_id)

/-- `JwtAuthenticationStrategy.authenticate` (`jwt_auth.py` 67–119), line by
line.  The `try` around `request.user_id = user_id; request.role = ...`
cannot raise (plain attribute assignment on the request object), so its
`except` branch raising `CustomAuthenticationFailed("User not found")` is
unreachable; `current_user = self.get_user(user_id)` stands OUTSIDE that
`try`, so a lookup miss propagates as `User.DoesNotExist`.  The
`if not payload` test on line 104 is never taken on success because
`UntypedToken` objects are truthy.  Alongside the outcome we record which
collaborators were invoked. -/
def JwtAuthenticationStrategy.authenticate (validate : String → TokenOutcome)
    (db : UserDb) (req : HttpRequest) :
    Except PyExc (AuthenticatedUser × String) × AuthTrace :=
  let auth_header := effective_auth_header req
  if ¬ (truthy auth_header ∧ startswith (auth_header.getD "") "Bearer ") then
    (.error (.customAuthFailed "Authorization Details is missing or invalid"),
     ⟨false, false⟩)
  else
    let token := split_token (auth_header.getD "")
    match token_validation validate token with
    | .error e => (.error e, ⟨true, false⟩)
    | .ok payload =>
      match payload.user_id with
      | none => (.error (.customAuthFailed "Token expired or Invalid"), ⟨true, false⟩)
      | some user_id =>
        match get_user db user_id with
        | .error e => (.error e, ⟨true, true⟩)
        | .ok current_user =>
          (.ok ({ id := user_id, role := payload.role,
                  tenant := current_user.tenant,
                  is_staff := current_user.is_staff,
                  is_authenticated := true }, token),
           ⟨true, true⟩)

/-- `AuthenticationService.authenticate` (`core/auth.py` 29–36): returns
`None` when the path starts with an entry of `PUBLIC_URL`, otherwise
delegates to the JWT strategy; its `except CustomAuthenticationFailed`
clause only re-raises, so every exception propagates to the caller.
`PUBLIC_URL` (`core/public_url.py`, not under `src/`) is a configured list of
path prefixes and is passed in as a parameter. -/
def AuthenticationService.authenticate (public_url : List String)
    (validate : String → TokenOutcome) (db : UserDb) (req : HttpRequest) :
    Except PyExc (Option (AuthenticatedUser × String)) × AuthTrace :=
  if public_url.any (fun p => startswith req.path p) then
    (.ok none, ⟨false, false⟩)
  else
    match JwtAuthenticationStrategy.authenticate validate db req with
    | (.error e, tr) => (.error e, tr)
    | (.ok res, tr) => (.ok (some res), tr)

/-! ## Tenant resolution middleware (`core/middleware.py`, lines 38–128) -/

/-- The `EXCLUDED_PATHS` list of `TenantMiddleware`, verbatim. -/
def EXCLUDED_PATHS : List String :=
  [ "/admin/",
    "/api/v1/auth/register/",
    "/api/v1/auth/login/",
    "/api/v1/auth/refresh/",
    "/api/v1/tenants/register/",
    "/api/v1/tenants/create-tenant/",
    "/swagger/",
    "/redoc/",
    "/api/schema/" ]

/-- A `JsonResponse({'error': ..., 'detail': ...}, status=...)`. -/
structure JsonResponse where
  error : String
  detail : String
  status : Nat
deriving DecidableEq, Repr

/-- What `process_request` does with control: `pass` is `return None`
(downstream handler will be invoked), `response` is an early `JsonResponse`
(downstream handler is NOT invoked), `exc` is an exception escaping
`process_request` (downstream handler is NOT invoked and, per
`MiddlewareMixin.__call__`, this middleware's `process_response` does not run
either). -/
inductive MwOutcome where
  | pass (tenant : Option Tenant)
  | response (r : JsonResponse)
  | exc (e : PyExc)
deriving DecidableEq, Repr

/-- `TenantMiddleware.process_request` (`middleware.py` 58–114), line by
line, executed by thread `tid` over thread-local state `s`.  It first clears
the context, then tests `EXCLUDED_PATHS`, then calls
`AuthenticationService().authenticate(request)`.  That call RAISES
`CustomAuthenticationFailed` on every authentication failure (it never
returns a pair with `user = None`), and when it returns `None` on a
`PUBLIC_URL` path the tuple unpacking `user, token = ...` raises `TypeError`;
either exception escapes `process_request`, so the
`{'error': 'Credential Missing', ...}` branch is unreachable.  On success it
walks the tenant checks and finally publishes the tenant.  The returned state
is the thread-local state at exit; on the `pass` outcome the tenant carried
is also attached to the request (`request.tenant = tenant`). -/
def process_request (public_url : List String)
    (validate : String → TokenOutcome) (db : UserDb)
    (s : TenantCtx) (tid : Nat) (req : HttpRequest) :
    MwOutcome × TenantCtx :=
  let s1 := clear_current_tenant s tid
  if EXCLUDED_PATHS.any (fun p => startswith req.path p) then
    (.pass none, s1)
  else
    match AuthenticationService.authenticate public_url validate db req with
    | (.error e, _) => (.exc e, s1)
    | (.ok none, _) =>
        (.exc (.typeError "cannot unpack non-iterable NoneType object"), s1)
    | (.ok (some (user, _token)), _) =>
      match user.tenant with
      | none =>
          (.response { error := "No tenant associated with user",
                       detail := "Your account is not associated with any organization.",
                       status := 403 }, s1)
      | some tenant =>
        if ¬ tenant.is_active then
          (.response { error := "Tenant inactive",
                       detail := "Your organization account has been deactivated.",
                       status := 403 }, s1)
        else
          (.pass (some tenant), set_current_tenant s1 tid tenant)

/-- `TenantMiddleware.process_response` (`middleware.py` 116–121): clears the
context and returns the response unchanged. -/
def process_response (s : TenantCtx) (tid : Nat) : TenantCtx :=
  clear_current_tenant s tid

/-- `TenantMiddleware.process_exception` (`middleware.py` 123–128): clears
the context and returns `None` (Django then builds the error response and
still runs `process_response`). -/
def process_exception (s : TenantCtx) (tid : Nat) : TenantCtx :=
  clear_current_tenant s tid

/-- Behaviour of the downstream handler (the view) once invoked: it either
produces a response or raises. -/
inductive HandlerResult where
  | ok
  | exc (e : PyExc)
deriving DecidableEq, Repr

/-- Terminal observation of one full request through `TenantMiddleware`. -/
inductive CycleOutcome where
  | responded (short_circuit : Option JsonResponse)
  | handler_error (e : PyExc)
  | middleware_error (e : PyExc)
deriving DecidableEq, Repr

/-- One full request through the middleware, following
`MiddlewareMixin.__call__`: run `process_request`; if it returns `None`,
invoke the downstream handler; a handler exception goes through
`process_exception` (which returns `None`, so Django produces the error
response) and then `process_response`; a normal response (the handler's or a
short-circuit) goes through `process_response`; an exception escaping
`process_request` bypasses this middleware's `process_response`. -/
def full_request_cycle (public_url : List String)
    (validate : String → TokenOutcome) (db : UserDb)
    (s : TenantCtx) (tid : Nat) (req : HttpRequest)
    (handler : HandlerResult) : CycleOutcome × TenantCtx :=
  match process_request public_url validate db s tid req with
  | (.exc e, s') => (.middleware_error e, s')
  | (.response r, s') => (.responded (some r), process_response s' tid)
  | (.pass _, s') =>
    match handler with
    | .ok => (.responded none, process_response s' tid)
    | .exc e =>
        (.handler_error e, process_response (process_exception s' tid) tid)

/-! ## Tenant activation / deactivation (`tenants/models.py`, lines 71–80)

These methods act through the ORM on the persistent tables, so they are
embedded as table transformers: a tenant row carries the columns touched or
framed by the methods, a user row carries its `tenant` foreign key and
`is_active`. -/

/-- A row of the `tenants` table (columns relevant to (de)activation; `name`
and `slug` stand in for the frame of untouched columns). -/
structure TenantRow where
  id : Nat
  name : String
  slug : String
  is_active : Bool
deriving DecidableEq, Repr

/-- A row of the `users` table: primary key, the `tenant` foreign key
(`none` when null) and `is_active`; `email` stands in for the frame of
untouched columns. -/
structure UserRow where
  id : Nat
  tenant_id : Option Nat
  email : String
  is_active : Bool
deriving DecidableEq, Repr

/-- The two tables the methods touch. -/
structure OrmDb where
  tenants : List TenantRow
  users : List UserRow
deriving DecidableEq, Repr

/-- `Tenant.deactivate` (`tenants/models.py` 71–75) called on the tenant with
primary key `self`: `self.is_active = False`,
`self.save(update_fields=['is_active'])`, then
`self.users.update(is_active=False)` — `self.users` is the reverse FK
manager, i.e. every user row whose `tenant` FK is `self`. -/
def Tenant.deactivate (db : OrmDb) (self : Nat) : OrmDb :=
  { tenants := db.tenants.map (fun t =>
      if t.id = self then { t with is_active := false } else t),
    users := db.users.map (fun u =>
      if u.tenant_id = some self then { u with is_active := false } else u) }

/-- `Tenant.activate` (`tenants/models.py` 77–80) called on the tenant with
primary key `self`: `self.is_active = True`,
`self.save(update_fields=['is_active'])` — and nothing else. -/
def Tenant.activate (db : OrmDb) (self : Nat) : OrmDb :=
  { db with tenants := db.tenants.map (fun t =>
      if t.id = self then { t with is_active := true } else t) }

/-! ## Concrete fixtures (used by closed theorems and witnesses) -/

/-- An empty thread-local storage: no thread has a tenant attribute. -/
def empty_ctx : TenantCtx := fun _ => none

/-- A request to a protected path carrying a well-formed bearer header. -/
def bearer_req : HttpRequest :=
  { path := "/api/v1/patients/", authorization := some "Bearer tok",
    http_authorization := none }

/-- A request to a protected path with no authorization header at all. -/
def no_auth_req : HttpRequest :=
  { path := "/api/v1/patients/", authorization := none,
    http_authorization := none }

/-- A request whose authorization header uses a non-Bearer scheme. -/
def token_scheme_req : HttpRequest :=
  { path := "/api/v1/patients/", authorization := some "Token abc",
    http_authorization := none }

/-- A JWT library behaviour under which every token decodes to the claims
`{user_id: 42, role: tenant_user}` (valid signature, unexpired). -/
def val_user42 : String → TokenOutcome :=
  fun _ => .ok { user_id := some 42, role := some "tenant_user" }

/-- An inactive tenant. -/
def inactive_tenant : Tenant := { id := 7, name := "acme", is_active := false }

/-- A user table holding the single active user 42, member of an inactive
tenant. -/
def user42_inactive_tenant_db : UserDb :=
  [ { id := 42, tenant := some inactive_tenant, is_active := true,
      is_staff := false, role := "tenant_user" } ]

/-- A tenants/users database with one tenant (id 5) owning one user and an
unrelated second tenant (id 9) owning another. -/
def demo_orm_db : OrmDb :=
  { tenants := [ { id := 5, name := "acme", slug := "acme", is_active := true },
                 { id := 9, name := "other", slug := "other", is_active := false } ],
    users := [ { id := 1, tenant_id := some 5, email := "a@acme.test", is_active := true },
               { id := 2, tenant_id := some 9, email := "b@other.test", is_active := true } ] }

/-! ## Shared lemmas -/

/-- Every user row whose FK points at the deactivated tenant is inactive
after `Tenant.deactivate`. -/
lemma deactivate_users_inactive (db : OrmDb) (self : Nat) :
    ∀ u ∈ (Tenant.deactivate db self).users, u.tenant_id = some self →
      u.is_active = false := by
  intro u hu htid
  simp only [Tenant.deactivate, List.mem_map] at hu
  obtain ⟨u0, _, rfl⟩ := hu
  by_cases h : u0.tenant_id = some self
  · simp [h]
  · simp [h] at htid

/-- The deactivated tenant row is inactive after `Tenant.deactivate`. -/
lemma deactivate_tenant_inactive (db : OrmDb) (self : Nat) :
    ∀ t ∈ (Tenant.deactivate db self).tenants, t.id = self →
      t.is_active = false := by
  intro t ht hid
  simp only [Tenant.deactivate, List.mem_map] at ht
  obtain ⟨t0, _, rfl⟩ := ht
  by_cases h : t0.id = self
  · simp [h]
  · simp [h] at hid

/-- `process_request` either announces pass-through or leaves the executing
thread's slot empty. -/
lemma process_request_state (public_url : List String)
    (validate : String → TokenOutcome) (db : UserDb)
    (s : TenantCtx) (tid : Nat) (req : HttpRequest) :
    (∃ t, (process_request public_url validate db s tid req).1 = .pass t) ∨
    (process_request public_url validate db s tid req).2 tid = none := by
  simp only [process_request]
  split
  · exact Or.inl ⟨none, rfl⟩
  · split
    · exact Or.inr (by simp [clear_current_tenant])
    · exact Or.inr (by simp [clear_current_tenant])
    · split
      · exact Or.inr (by simp [clear_current_tenant])
      · split
        · exact Or.inr (by simp [clear_current_tenant])
        · exact Or.inl ⟨_, rfl⟩

/-! ## Claims -/

/-- C8: the context-clear operation is idempotent: for every context state
and executing thread, clearing twice equals clearing once (so the second
call changes nothing observable), and after a clear the slot reads empty —
in particular clearing when nothing is set is a no-op, and `clear` is a
total function that raises nothing. -/
theorem C8_clear_idempotent (s : TenantCtx) (tid : Nat) :
    clear_current_tenant (clear_current_tenant s tid) tid
      = clear_current_tenant s tid
  ∧ get_current_tenant (clear_current_tenant s tid) tid = none := by
  constructor
  · funext tid'
    by_cases h : tid' = tid <;> simp [clear_current_tenant, h]
  · simp [get_current_tenant, clear_current_tenant]

/-- C1: the tenant-context storage is thread-local, never a bare shared
global: along any interleaved trace of context operations by any set of
threads, if thread `a` starts with an empty slot and its own operations only
ever set tenant `tA` or clear, then at no point of the trace (no prefix)
does `a`'s `get_current_tenant` return a different tenant `tB` — whatever
the concurrently running threads set their own slots to. -/
theorem C1_thread_local_isolation (ops : List CtxOp) (s : TenantCtx)
    (a : Nat) (tA tB : Tenant)
    (hstart : s a = none) (hAB : tA ≠ tB)
    (ha : ∀ op ∈ ops, op.thread = a → op = .set a tA ∨ op = .clear a) :
    ∀ pre, pre <+: ops → get_current_tenant (runOps s pre) a ≠ some tB := by
  intro pre hpre hcontra
  have hops_pre : ∀ op ∈ pre, op.thread = a → op = .set a tA ∨ op = .clear a :=
    fun op hop => ha op (hpre.subset hop)
  rcases runOps_own_invariant pre s a tA hops_pre (Or.inl hstart) with h | h
  · rw [get_current_tenant, h] at hcontra
    exact Option.noConfusion hcontra
  · rw [get_current_tenant, h] at hcontra
    exact hAB (Option.some.injEq .. ▸ hcontra)

/-- Witness for C1 at a concrete interleaving: thread 1 sets its tenant,
thread 0 sets tenant A, and after that prefix thread 0 does not observe
thread 1's tenant. -/
theorem C1_thread_local_isolation_witness :
    get_current_tenant
      (runOps (fun _ => none)
        [CtxOp.set 1 ⟨2, "B", true⟩, CtxOp.set 0 ⟨1, "A", true⟩]) 0
      ≠ some ⟨2, "B", true⟩ :=
  C1_thread_local_isolation
    [CtxOp.set 1 ⟨2, "B", true⟩, CtxOp.set 0 ⟨1, "A", true⟩, CtxOp.clear 1]
    (fun _ => none) 0 ⟨1, "A", true⟩ ⟨2, "B", true⟩ rfl (by decide)
    (by decide)
    [CtxOp.set 1 ⟨2, "B", true⟩, CtxOp.set 0 ⟨1, "A", true⟩]
    ⟨[CtxOp.clear 1], rfl⟩

/-- C2: the tenant context never survives a request.  First conjunct: after
a full request cycle — pass-through with a successful handler, short-circuit
response, handler exception, or an exception escaping `process_request`
itself — the executing thread's slot is empty.  Second conjunct: the entry
clear is unconditional and precedes path matching and authentication:
whatever tenant a previous request left in the slot, `process_request`
behaves exactly as if the slot were in its original state, on every path
(excluded paths included). -/
theorem C2_context_cleared_every_exit (public_url : List String)
    (validate : String → TokenOutcome) (db : UserDb)
    (s : TenantCtx) (tid : Nat) (t : Tenant) (req : HttpRequest)
    (handler : HandlerResult) :
    (full_request_cycle public_url validate db s tid req handler).2 tid = none
  ∧ process_request public_url validate db (set_current_tenant s tid t) tid req
      = process_request public_url validate db s tid req := by
  constructor
  · rcases hpr : process_request public_url validate db s tid req with ⟨o, s'⟩
    unfold full_request_cycle
    rw [hpr]
    cases o with
    | pass topt =>
        cases handler <;>
          simp [process_response, process_exception, clear_current_tenant]
    | response r =>
        simp [process_response, clear_current_tenant]
    | exc e =>
        rcases process_request_state public_url validate db s tid req
          with ⟨t', ht'⟩ | hnone
        · rw [hpr] at ht'
          exact absurd ht' (by simp)
        · rw [hpr] at hnone
          exact hnone
  · have hclear : clear_current_tenant (set_current_tenant s tid t) tid
        = clear_current_tenant s tid := by
      funext tid'
      by_cases h : tid' = tid <;>
        simp [clear_current_tenant, set_current_tenant, h]
    unfold process_request
    rw [hclear]

/-- C3 (refuted — code bug): for a valid, unexpired token whose subject id
42 references no user row, `JwtAuthenticationStrategy.authenticate` does NOT
fail with `AuthenticationFailed("user not found")`: `get_user` sits outside
the `try` block, so the lookup miss propagates as the unhandled
`User.DoesNotExist` exception, which no `except CustomAuthenticationFailed`
handler catches. -/
theorem C3_user_lookup_miss_crashes :
    (JwtAuthenticationStrategy.authenticate val_user42 [] bearer_req).1
      = .error (.userDoesNotExist 42)
  ∧ (PyExc.userDoesNotExist 42).isCustomAuthFailed = false :=
  ⟨rfl, rfl⟩

/-- C4 (refuted — code bug): on a request to a non-excluded path with a
missing authorization header, `TenantMiddleware.process_request` does not
short-circuit with the 403 `{'error': 'Credential Missing', ...}` response:
`AuthenticationService.authenticate` raises on failure (it never returns a
pair with a `None` user), so the `CustomAuthenticationFailed` exception
escapes the middleware and the 403 branch is unreachable. -/
theorem C4_auth_failure_escapes_middleware :
    (process_request [] val_user42 [] empty_ctx 0 no_auth_req).1
      = .exc (.customAuthFailed "Authorization Details is missing or invalid") :=
  rfl

/-- C5: for every request to a non-excluded, non-public path on which the
JWT authenticator succeeds with an identity whose tenant is inactive,
`process_request` returns exactly the 403 `Tenant inactive` response with
the thread-local state merely entry-cleared: the downstream handler is not
invoked (the outcome is not a pass-through) and the tenant context is never
set at any point of the request. -/
theorem C5_tenant_inactive_short_circuit (public_url : List String)
    (validate : String → TokenOutcome) (db : UserDb) (s : TenantCtx)
    (tid : Nat) (req : HttpRequest) (user : AuthenticatedUser) (tok : String)
    (tenant : Tenant)
    (hpath : EXCLUDED_PATHS.any (fun p => startswith req.path p) = false)
    (hpub : public_url.any (fun p => startswith req.path p) = false)
    (hauth : (JwtAuthenticationStrategy.authenticate validate db req).1
        = .ok (user, tok))
    (htenant : user.tenant = some tenant)
    (hinactive : tenant.is_active = false) :
    process_request public_url validate db s tid req
      = (.response { error := "Tenant inactive",
                     detail := "Your organization account has been deactivated.",
                     status := 403 },
         clear_current_tenant s tid) := by
  rcases hJ : JwtAuthenticationStrategy.authenticate validate db req with ⟨res, tr⟩
  rw [hJ] at hauth
  dsimp only at hauth
  subst hauth
  unfold process_request AuthenticationService.authenticate
  rw [hJ]
  simp [hpath, hpub, htenant, hinactive]

/-- Witness for C5: user 42's tenant is inactive, the request is rejected
with the `Tenant inactive` 403 and the context stays empty. -/
theorem C5_tenant_inactive_short_circuit_witness :
    process_request [] val_user42 user42_inactive_tenant_db empty_ctx 0 bearer_req
      = (.response { error := "Tenant inactive",
                     detail := "Your organization account has been deactivated.",
                     status := 403 },
         clear_current_tenant empty_ctx 0) :=
  C5_tenant_inactive_short_circuit [] val_user42 user42_inactive_tenant_db
    empty_ctx 0 bearer_req
    { id := 42, role := some "tenant_user", tenant := some inactive_tenant,
      is_staff := false, is_authenticated := true } "tok" inactive_tenant
    (by decide) rfl rfl rfl rfl

/-- C6: whenever the authorization header is missing, empty or lacks the
`Bearer ` scheme — after the `HTTP_AUTHORIZATION` fallback — the
authenticator fails with `CustomAuthenticationFailed` and the token
validator is never invoked (nor is the user lookup). -/
theorem C6_malformed_header_no_validator (validate : String → TokenOutcome)
    (db : UserDb) (req : HttpRequest)
    (hbad : truthy (effective_auth_header req) = false ∨
            startswith ((effective_auth_header req).getD "") "Bearer " = false) :
    JwtAuthenticationStrategy.authenticate validate db req
      = (.error (.customAuthFailed "Authorization Details is missing or invalid"),
         { validator_called := false, get_user_called := false }) := by
  unfold JwtAuthenticationStrategy.authenticate
  rcases hbad with h | h <;> simp [h]

/-- Witness for C6: a header using the `Token` scheme is rejected without
calling the validator. -/
theorem C6_malformed_header_no_validator_witness :
    JwtAuthenticationStrategy.authenticate val_user42 [] token_scheme_req
      = (.error (.customAuthFailed "Authorization Details is missing or invalid"),
         { validator_called := false, get_user_called := false }) :=
  C6_malformed_header_no_validator val_user42 [] token_scheme_req
    (Or.inr (by decide))

/-- Any request with a well-formed bearer header whose token the validator
rejects — any of the four caught exception classes, or a payload with no
`user_id` claim — yields the single opaque failure message. -/
lemma auth_rejected_token (validate : String → TokenOutcome) (db : UserDb)
    (req : HttpRequest)
    (hb : truthy (effective_auth_header req) = true)
    (hp : startswith ((effective_auth_header req).getD "") "Bearer " = true)
    (hf : (validate (split_token ((effective_auth_header req).getD ""))).rejected
        = true) :
    (JwtAuthenticationStrategy.authenticate validate db req).1
      = .error (.customAuthFailed "Token expired or Invalid") := by
  unfold JwtAuthenticationStrategy.authenticate
  simp only [hb, hp, and_self, not_true_eq_false, if_false, ite_false]
  cases hv : validate (split_token ((effective_auth_header req).getD "")) with
  | ok p =>
      rw [hv] at hf
      simp only [TokenOutcome.rejected, Option.isNone_iff_eq_none] at hf
      simp [token_validation, hv, hf]
  | invalidToken => simp [token_validation, hv]
  | tokenError => simp [token_validation, hv]
  | expiredSignature => simp [token_validation, hv]
  | invalidTokenError => simp [token_validation, hv]

/-- C7: every token-validation failure — expired, structurally malformed,
bad signature, or a well-formed payload missing the subject-id claim —
collapses to the identical client-visible failure: for any two requests
failing for any two of these causes, the authenticator's outputs are equal,
namely `CustomAuthenticationFailed("Token expired or Invalid")`, so no two
causes are distinguishable from the response. -/
theorem C7_failure_collapse (v1 v2 : String → TokenOutcome)
    (db1 db2 : UserDb) (req1 req2 : HttpRequest)
    (hb1 : truthy (effective_auth_header req1) = true)
    (hp1 : startswith ((effective_auth_header req1).getD "") "Bearer " = true)
    (hf1 : (v1 (split_token ((effective_auth_header req1).getD ""))).rejected
        = true)
    (hb2 : truthy (effective_auth_header req2) = true)
    (hp2 : startswith ((effective_auth_header req2).getD "") "Bearer " = true)
    (hf2 : (v2 (split_token ((effective_auth_header req2).getD ""))).rejected
        = true) :
    (JwtAuthenticationStrategy.authenticate v1 db1 req1).1
      = (JwtAuthenticationStrategy.authenticate v2 db2 req2).1
  ∧ (JwtAuthenticationStrategy.authenticate v1 db1 req1).1
      = .error (.customAuthFailed "Token expired or Invalid") := by
  have h1 := auth_rejected_token v1 db1 req1 hb1 hp1 hf1
  have h2 := auth_rejected_token v2 db2 req2 hb2 hp2 hf2
  exact ⟨h1.trans h2.symm, h1⟩

/-- Witness for C7: an expired signature and a missing subject-id claim
produce the same response. -/
theorem C7_failure_collapse_witness :
    (JwtAuthenticationStrategy.authenticate
        (fun _ => .expiredSignature) [] bearer_req).1
      = (JwtAuthenticationStrategy.authenticate
          (fun _ => .ok { user_id := none, role := none }) [] bearer_req).1
  ∧ (JwtAuthenticationStrategy.authenticate
        (fun _ => .expiredSignature) [] bearer_req).1
      = .error (.customAuthFailed "Token expired or Invalid") :=
  C7_failure_collapse (fun _ => .expiredSignature)
    (fun _ => .ok { user_id := none, role := none }) [] [] bearer_req bearer_req
    rfl rfl rfl rfl rfl rfl

/-- C9: `Tenant.deactivate` sets the tenant's `is_active` to false AND sets
`is_active` to false on every user row whose tenant FK is that tenant — the
cascade is part of the operation itself. -/
theorem C9_deactivate_cascades (db : OrmDb) (self : Nat) :
    (∀ t ∈ (Tenant.deactivate db self).tenants, t.id = self →
        t.is_active = false)
  ∧ (∀ u ∈ (Tenant.deactivate db self).users, u.tenant_id = some self →
        u.is_active = false) :=
  ⟨deactivate_tenant_inactive db self, deactivate_users_inactive db self⟩

/-- Witness for C9 on a two-tenant database: tenant 5 and its user 1 are
both inactive after `deactivate`. -/
theorem C9_deactivate_cascades_witness :
    ({ id := 5, name := "acme", slug := "acme", is_active := false } :
        TenantRow).is_active = false
  ∧ ({ id := 1, tenant_id := some 5, email := "a@acme.test",
        is_active := false } : UserRow).is_active = false :=
  ⟨(C9_deactivate_cascades demo_orm_db 5).1
      { id := 5, name := "acme", slug := "acme", is_active := false }
      (by decide) rfl,
   (C9_deactivate_cascades demo_orm_db 5).2
      { id := 1, tenant_id := some 5, email := "a@acme.test",
        is_active := false }
      (by decide) rfl⟩

/-- C10: `Tenant.activate` touches only the tenant's own `is_active` flag:
the users table is returned unchanged, the tenant's flag becomes true, every
other tenant row is kept as it was — and after a deactivation cascade
followed by reactivation, the tenant's users remain inactive (the cascade is
asymmetric). -/
theorem C10_activate_frame (db : OrmDb) (self : Nat) :
    (Tenant.activate db self).users = db.users
  ∧ (∀ t ∈ (Tenant.activate db self).tenants, t.id = self →
        t.is_active = true)
  ∧ (∀ t ∈ db.tenants, t.id ≠ self → t ∈ (Tenant.activate db self).tenants)
  ∧ (∀ u ∈ (Tenant.activate (Tenant.deactivate db self) self).users,
        u.tenant_id = some self → u.is_active = false) := by
  refine ⟨rfl, ?_, ?_, ?_⟩
  · intro t ht hid
    simp only [Tenant.activate, List.mem_map] at ht
    obtain ⟨t0, _, rfl⟩ := ht
    by_cases h : t0.id = self
    · simp [h]
    · simp [h] at hid
  · intro t ht hne
    simp only [Tenant.activate, List.mem_map]
    exact ⟨t, ht, by simp [hne]⟩
  · exact deactivate_users_inactive db self

/-- Witness for C10 on a two-tenant database: users are untouched by
`activate`, tenant 5's flag is set, tenant 9 is kept verbatim, and user 1
stays inactive after deactivate-then-activate of tenant 5. -/
theorem C10_activate_frame_witness :
    (Tenant.activate demo_orm_db 5).users = demo_orm_db.users
  ∧ ({ id := 5, name := "acme", slug := "acme", is_active := true } :
        TenantRow).is_active = true
  ∧ ({ id := 9, name := "other", slug := "other", is_active := false } :
        TenantRow) ∈ (Tenant.activate demo_orm_db 5).tenants
  ∧ ({ id := 1, tenant_id := some 5, email := "a@acme.test",
        is_active := false } : UserRow).is_active = false :=
  ⟨(C10_activate_frame demo_orm_db 5).1,
   (C10_activate_frame demo_orm_db 5).2.1
      { id := 5, name := "acme", slug := "acme", is_active := true }
      (by decide) rfl,
   (C10_activate_frame demo_orm_db 5).2.2.1
      { id := 9, name := "other", slug := "other", is_active := false }
      (by decide) (by decide),
   (C10_activate_frame demo_orm_db 5).2.2.2
      { id := 1, tenant_id := some 5, email := "a@acme.test",
        is_active := false }
      (by decide) rfl⟩

end LabMgmt
